import Mathlib

/-!
Shallow embedding of the TETRAPOL physical-channel receiver core
(`src/lib/phys_ch.c`) and verification of its specification claims.

Bits are modelled as `Bool` (the C code carries one hard-decided bit per
byte and combines bits with XOR only).  The sliding bit buffer is a
`List Bool`; consuming bits is `List.drop`, appending is `List.append`.
External collaborators that are not part of this translation unit
(`decoded_frame_check_crc`, the `FRAME_TYPE_DATA` constant from
`decoded_frame.h`) are parameters of the model, bundled in `Ext`.
Side-effecting calls into the multiblock/segmentation layers are
recorded as an explicit list of `ExtCall` events.
-/

namespace Tetrapol

/-- `#define MAX_FRAME_SYNC_ERR 1` -/
def MAX_FRAME_SYNC_ERR : Nat := 1

/-- `#define FRAME_HDR_LEN (8)` -/
def FRAME_HDR_LEN : Nat := 8

/-- `#define FRAME_DATA_LEN (152)` -/
def FRAME_DATA_LEN : Nat := 152

/-- `#define FRAME_LEN (FRAME_HDR_LEN + FRAME_DATA_LEN)` -/
def FRAME_LEN : Nat := FRAME_HDR_LEN + FRAME_DATA_LEN

/-- The two radio bands (`TETRAPOL_BAND_VHF` / `TETRAPOL_BAND_UHF`). -/
inductive Band
  | VHF
  | UHF
deriving DecidableEq

/-- Radio channel type (`TETRAPOL_RCH_CONTROL` / `TETRAPOL_RCH_TRAFFIC`). -/
inductive RchType
  | CONTROL
  | TRAFFIC
deriving DecidableEq

/-- An observable call into the multiblock / segmentation collaborators. -/
inductive ExtCall
  | multiblock_reset
  | segmentation_reset
  | multiblock_process (blockIdx : Nat)
deriving DecidableEq

/-- `frame_t`: raw frame number (`FRAME_NO_UNKNOWN` is `none`) plus the
152 payload bits. -/
structure Frame where
  frame_no : Option Nat
  data : List Bool
deriving DecidableEq

/-- `decoded_frame_t`: 76 decoded bits, 76 erasure flags, frame number. -/
structure DecodedFrame where
  data : List Bool
  err : List Bool
  frame_no : Option Nat
deriving DecidableEq

/-- External collaborators of `phys_ch.c` that live in other translation
units: the CRC validator `decoded_frame_check_crc` and the constant
`FRAME_TYPE_DATA` (a decoded bit value) from `decoded_frame.h`. -/
structure Ext where
  check_crc : DecodedFrame → Bool
  FRAME_TYPE_DATA : Bool

/-- `struct _phys_ch_t`.  `scr = none` models `PHYS_CH_SCR_DETECT`,
`frame_no = none` models `FRAME_NO_UNKNOWN`.  The bit buffer `data`
together with its length models the `data[10*FRAME_LEN]` array plus
`data_len`. -/
structure PhysCh where
  band : Band
  rch_type : RchType
  last_sync_err : Nat
  total_sync_err : Nat
  has_frame_sync : Bool
  frame_no : Option Nat
  scr : Option Nat
  scr_guess : Nat
  scr_confidence : Int
  scr_stat : List Int
  data : List Bool

/-- `scramb_table` (127 entries), copied verbatim from `phys_ch.c`. -/
def scramb_table_num : List Nat := [
    1, 1, 1, 1, 1, 1, 1, 0,
    1, 0, 1, 0, 1, 0, 0, 1,
    1, 0, 0, 1, 1, 1, 0, 1,
    1, 1, 0, 1, 0, 0, 1, 0,
    1, 1, 0, 0, 0, 1, 1, 0,
    1, 1, 1, 1, 0, 1, 1, 0,
    1, 0, 1, 1, 0, 1, 1, 0,
    0, 1, 0, 0, 1, 0, 0, 0,
    1, 1, 1, 0, 0, 0, 0, 1,
    0, 1, 1, 1, 1, 1, 0, 0,
    1, 0, 1, 0, 1, 1, 1, 0,
    0, 1, 1, 0, 1, 0, 0, 0,
    1, 0, 0, 1, 1, 1, 1, 0,
    0, 0, 1, 0, 1, 0, 0, 0,
    0, 1, 1, 0, 0, 0, 0, 0,
    1, 0, 0, 0, 0, 0, 0]

/-- `scramb_table` as bits. -/
def scramb_table : List Bool := scramb_table_num.map (fun v => v == 1)

/-- `interleave_data_UHF` (152 entries), copied verbatim from `phys_ch.c`. -/
def interleave_data_UHF : List Nat := [
    1, 77, 38, 114, 20, 96, 59, 135,
    3, 79, 41, 117, 23, 99, 62, 138,
    5, 81, 44, 120, 26, 102, 65, 141,
    8, 84, 47, 123, 29, 105, 68, 144,
    11, 87, 50, 126, 32, 108, 71, 147,
    14, 90, 53, 129, 35, 111, 74, 150,
    17, 93, 56, 132, 37, 112, 76, 148,
    2, 88, 40, 115, 19, 97, 58, 133,
    4, 75, 43, 118, 22, 100, 61, 136,
    7, 85, 46, 121, 25, 103, 64, 139,
    10, 82, 49, 124, 28, 106, 67, 142,
    13, 91, 52, 127, 31, 109, 73, 145,
    16, 94, 55, 130, 34, 113, 70, 151,
    0, 80, 39, 116, 21, 95, 57, 134,
    6, 78, 42, 119, 24, 98, 60, 137,
    9, 83, 45, 122, 27, 101, 63, 140,
    12, 86, 48, 125, 30, 104, 66, 143,
    15, 89, 51, 128, 33, 107, 69, 146,
    18, 92, 54, 131, 36, 110, 72, 149]

/-- `diff_precod_UHF` (152 entries), copied verbatim from `phys_ch.c`. -/
def diff_precod_UHF : List Nat := [
    1, 1, 1, 1, 1, 1, 1, 2,
    1, 1, 2, 1, 1, 2, 1, 1,
    2, 1, 1, 2, 1, 1, 2, 1,
    1, 2, 1, 1, 2, 1, 1, 2,
    1, 1, 2, 1, 1, 2, 1, 1,
    2, 1, 1, 2, 1, 1, 2, 1,
    1, 2, 1, 1, 2, 1, 1, 2,
    1, 1, 2, 1, 1, 2, 1, 1,
    2, 1, 1, 2, 1, 1, 2, 1,
    1, 2, 1, 1, 2, 1, 1, 1,
    1, 1, 1, 2, 1, 1, 2, 1,
    1, 2, 1, 1, 2, 1, 1, 2,
    1, 1, 2, 1, 1, 2, 1, 1,
    2, 1, 1, 2, 1, 1, 2, 1,
    1, 2, 1, 1, 2, 1, 1, 2,
    1, 1, 2, 1, 1, 2, 1, 1,
    2, 1, 1, 2, 1, 1, 2, 1,
    1, 2, 1, 1, 2, 1, 1, 2,
    1, 1, 2, 1, 1, 2, 1, 1]

/-- `differential_dec(data, size, last_bit)`: in-order prefix XOR. -/
def differential_dec : List Bool → Bool → List Bool
  | [], _ => []
  | b :: rest, last =>
    let nb := xor b last
    nb :: differential_dec rest nb

/-- `tetrapol_recv2`: append at most `10*FRAME_LEN - data_len` bits,
return the count accepted. -/
def tetrapol_recv2 (p : PhysCh) (buf : List Bool) : PhysCh × Nat :=
  let space := 10 * FRAME_LEN - p.data.length
  let n := min buf.length space
  ({ p with data := p.data ++ buf.take n }, n)

/-- The differentially encoded synchronization sequence `frame_dsync`. -/
def frame_dsync : List Bool := [true, false, true, false, false, true, true]

/-- `cmp_frame_sync(data)`: Hamming distance between `frame_dsync` and
`data[1..7]`. -/
def cmp_frame_sync (data : List Bool) : Nat :=
  (List.range 7).countP fun i => frame_dsync.getD i false != data.getD (i + 1) false

/-- Combined sync error of the two candidate headers at offset `o`:
`cmp_frame_sync(data + o) + cmp_frame_sync(data + o + FRAME_LEN)`. -/
def syncErrAt (data : List Bool) (o : Nat) : Nat :=
  cmp_frame_sync (data.drop o) + cmp_frame_sync (data.drop (o + FRAME_LEN))

/-- The scanning loop of `find_frame_sync`: starting at offset `offs`,
advance while `offs + FRAME_LEN + FRAME_HDR_LEN < data_len`, stopping at
the first offset whose combined error is `≤ MAX_FRAME_SYNC_ERR`. -/
def findSyncFrom (data : List Bool) (offs : Nat) : Option Nat :=
  if h : offs + (FRAME_LEN + FRAME_HDR_LEN) < data.length then
    if syncErrAt data offs ≤ MAX_FRAME_SYNC_ERR then some offs
    else findSyncFrom data (offs + 1)
  else none
termination_by data.length - offs
decreasing_by
  simp only [FRAME_LEN, FRAME_HDR_LEN, FRAME_DATA_LEN] at h
  omega

/-- `find_frame_sync`: scan, discard the scanned prefix, and on success
reset the sync-error counters.  Returns the updated channel and whether
sync was found. -/
def find_frame_sync (p : PhysCh) : PhysCh × Bool :=
  match findSyncFrom p.data 0 with
  | some o =>
    ({ p with data := p.data.drop o, last_sync_err := 0, total_sync_err := 0 }, true)
  | none =>
    ({ p with data := p.data.drop (p.data.length - (FRAME_LEN + FRAME_HDR_LEN)) }, false)

/-- The acquisition part of `tetrapol_phys_ch_process` (executed when
`has_frame_sync` is false): on success set `has_frame_sync`, reset
`frame_no` to `FRAME_NO_UNKNOWN` and notify the multiblock and
segmentation layers. -/
def processAcquire (p : PhysCh) : PhysCh × Bool × List ExtCall :=
  if p.has_frame_sync then (p, true, [])
  else
    let r := find_frame_sync p
    if r.2 then
      ({ r.1 with has_frame_sync := true, frame_no := none }, true,
        [ExtCall.multiblock_reset, ExtCall.segmentation_reset])
    else ({ r.1 with has_frame_sync := false }, false, [])

/-- Result of `get_frame`: `0` / `1` / `-1` in the C code. -/
inductive GetFrameRes
  | noData
  | got (f : Frame)
  | syncLost
deriving DecidableEq

/-- The frame-emitting tail of `get_frame`: store `last_sync_err`, copy
and differentially decode the 152 payload bits, consume one frame. -/
def get_frame_emit (p : PhysCh) (sync_err : Nat) : PhysCh × GetFrameRes :=
  ({ p with last_sync_err := sync_err, data := p.data.drop FRAME_LEN },
    GetFrameRes.got
      { frame_no := p.frame_no
        data := differential_dec ((p.data.drop FRAME_HDR_LEN).take FRAME_DATA_LEN) false })

/-- `get_frame`: sync tracking plus frame extraction. -/
def get_frame (p : PhysCh) : PhysCh × GetFrameRes :=
  if p.data.length < FRAME_LEN then (p, GetFrameRes.noData)
  else if cmp_frame_sync p.data + p.last_sync_err > MAX_FRAME_SYNC_ERR then
    if 1 + 2 * p.total_sync_err ≥ FRAME_LEN then
      ({ p with total_sync_err := 1 + 2 * p.total_sync_err }, GetFrameRes.syncLost)
    else
      get_frame_emit { p with total_sync_err := 1 + 2 * p.total_sync_err }
        (cmp_frame_sync p.data)
  else get_frame_emit { p with total_sync_err := 0 } (cmp_frame_sync p.data)

/-- `channel_decoder(res, err, in, res_len)`: rate-1/2 convolutional
recovery with erasure flags, indices taken modulo `2*res_len`.
Returns `(res, err, errs)`. -/
def channel_decoder (input : List Bool) (res_len : Nat) : List Bool × List Bool × Nat :=
  let res := (List.range res_len).map fun i =>
    xor (input.getD ((2 * i + 2) % (2 * res_len)) false)
        (input.getD ((2 * i + 3) % (2 * res_len)) false)
  let err := (List.range res_len).map fun i =>
    xor (xor (input.getD ((2 * i + 5) % (2 * res_len)) false)
             (xor (input.getD ((2 * i + 6) % (2 * res_len)) false)
                  (input.getD ((2 * i + 7) % (2 * res_len)) false)))
        (res.getD i false)
  (res, err, err.countP id)

/-- `frame_decode_data`: decode the first 52 bits into 26 outputs, the
remaining 100 bits into 50 outputs, sum the error counts. -/
def frame_decode_data (f : Frame) : DecodedFrame × Nat :=
  let r1 := channel_decoder f.data 26
  let r2 := channel_decoder (f.data.drop (2 * 26)) 50
  ({ data := r1.1 ++ r2.1, err := r1.2.1 ++ r2.2.1, frame_no := f.frame_no },
    r1.2.2 + r2.2.2)

/-- `frame_deinterleave`: `out[j] = in[int_table[j]]` for `j < 152`. -/
def frame_deinterleave (data : List Bool) (int_table : List Nat) : List Bool :=
  (List.range FRAME_DATA_LEN).map fun j => data.getD (int_table.getD j 0) false

/-- One step of `frame_diff_dec`: `data[j] ^= data[j - diff_precod_UHF[j]]`. -/
def diff_dec_step (data : List Bool) (j : Nat) : List Bool :=
  data.set j (xor (data.getD j false) (data.getD (j - diff_precod_UHF.getD j 1) false))

/-- `frame_diff_dec`: differential precoding inverse, `j` from 151 down to 1. -/
def frame_diff_dec (data : List Bool) : List Bool :=
  ((List.range' 1 (FRAME_DATA_LEN - 1)).reverse).foldl diff_dec_step data

/-- `frame_descramble`: no-op for `scr == 0`, otherwise XOR bit `k` with
`scramb_table[(k + scr) % 127]`. -/
def frame_descramble (data : List Bool) (scr : Nat) : List Bool :=
  if scr = 0 then data
  else (List.range FRAME_DATA_LEN).map fun k =>
    xor (data.getD k false) (scramb_table.getD ((k + scr) % 127) false)

/-- The speculative per-key pipeline of `detect_scr`: descramble with
candidate key `k`, then (UHF only) differential precoding inverse and
deinterleave; the VHF deinterleave is a TODO in the source. -/
def scr_pipeline (band : Band) (data : List Bool) (k : Nat) : List Bool :=
  let d1 := frame_descramble data k
  match band with
  | Band.VHF => d1
  | Band.UHF => frame_deinterleave (frame_diff_dec d1) interleave_data_UHF

/-- `scr_stat[scr] -= 2; if (scr_stat[scr] < 0) scr_stat[scr] = 0;` -/
def clampDec2 (x : Int) : Int :=
  if x - 2 < 0 then 0 else x - 2

/-- The statistic-update loop of `detect_scr`: for each candidate key,
penalise decode errors or CRC failure by 2 (clamped at 0), otherwise
reward by 1. -/
def scr_stat_update (ext : Ext) (band : Band) (f : Frame) (stat : List Int) : List Int :=
  (List.range 128).foldl
    (fun st k =>
      let d := frame_decode_data { f with data := scr_pipeline band f.data k }
      if d.2 ≠ 0 then st.set k (clampDec2 (st.getD k 0))
      else if ext.check_crc d.1 = false then st.set k (clampDec2 (st.getD k 0))
      else st.set k (st.getD k 0 + 1))
    stat

/-- The failure condition used by the `scr_stat` update for key `k`:
convolutional errors or CRC failure on the speculative pipeline. -/
def scrFails (ext : Ext) (band : Band) (f : Frame) (k : Nat) : Prop :=
  (frame_decode_data { f with data := scr_pipeline band f.data k }).2 ≠ 0 ∨
  ext.check_crc (frame_decode_data { f with data := scr_pipeline band f.data k }).1 = false

instance (ext : Ext) (band : Band) (f : Frame) (k : Nat) :
    Decidable (scrFails ext band f k) := by
  unfold scrFails
  infer_instance

/-- Loop body of the best/second search in `detect_scr`:
`if (scr_stat[scr] >= scr_stat[scr_max]) { scr_max2 = scr_max; scr_max = scr; }` -/
def selStep (stat : List Int) (mm : Nat × Nat) (k : Nat) : Nat × Nat :=
  if stat.getD mm.1 0 ≤ stat.getD k 0 then (k, mm.1) else mm

/-- The best/second search of `detect_scr`: initialise from keys 0 and 1,
then scan keys 2..127, a new candidate displacing the best on `≥`. -/
def select_scr (stat : List Int) : Nat × Nat :=
  (List.range' 2 126).foldl (selStep stat)
    (if stat.getD 0 0 < stat.getD 1 0 then (1, 0) else (0, 1))

/-- The tail of `detect_scr` given the updated statistics `stat` and the
best/second pair `mm`: commit `scr` when the confidence gap is met, and
record the best guess. -/
def detect_commit (p : PhysCh) (stat : List Int) (mm : Nat × Nat) : PhysCh :=
  if stat.getD mm.2 0 < stat.getD mm.1 0 - p.scr_confidence then
    { p with scr_stat := stat, scr_guess := mm.1, scr := some mm.1 }
  else { p with scr_stat := stat, scr_guess := mm.1 }

/-- `detect_scr`: update all 128 scores, pick best/second, commit `scr`
when the confidence gap is met, and record the best guess. -/
def detect_scr (ext : Ext) (p : PhysCh) (f : Frame) : PhysCh :=
  detect_commit p (scr_stat_update ext p.band f p.scr_stat)
    (select_scr (scr_stat_update ext p.band f p.scr_stat))

/-- `tetrapol_phys_ch_set_scr`: set `scr` and clear the statistics. -/
def tetrapol_phys_ch_set_scr (p : PhysCh) (scr : Option Nat) : PhysCh :=
  { p with scr := scr, scr_stat := List.replicate 128 0 }

/-- The SCR key actually used by `process_frame_cch`:
`scr_guess` while detecting, the committed key otherwise. -/
def cch_scr (p : PhysCh) : Nat :=
  match p.scr with
  | none => p.scr_guess
  | some s => s

/-- The line-coding inverse applied by `process_frame_cch` on UHF:
descramble, differential precoding inverse, deinterleave. -/
def cch_transformed (p : PhysCh) (f : Frame) : Frame :=
  { f with data :=
      (frame_deinterleave (frame_diff_dec (frame_descramble f.data (cch_scr p)))
        interleave_data_UHF) }

/-- `process_frame_cch`: run the pipeline, drop the frame (resetting the
multiblock and segmentation layers) on decode, type, or CRC error;
forward it via `multiblock_process` otherwise.  Returns the (possibly
modified) frame, the C return value, and the external calls made. -/
def process_frame_cch (ext : Ext) (p : PhysCh) (f : Frame) : Frame × Int × List ExtCall :=
  match p.band with
  | Band.VHF => ({ f with data := frame_descramble f.data (cch_scr p) }, -1, [])
  | Band.UHF =>
    let f2 := cch_transformed p f
    let r := frame_decode_data f2
    if r.2 ≠ 0 then
      (f2, 0, [ExtCall.multiblock_reset, ExtCall.segmentation_reset])
    else if r.1.data.getD 0 false ≠ ext.FRAME_TYPE_DATA then
      (f2, 0, [ExtCall.multiblock_reset, ExtCall.segmentation_reset])
    else if ext.check_crc r.1 = false then
      (f2, 0, [ExtCall.multiblock_reset, ExtCall.segmentation_reset])
    else
      ({ f2 with frame_no := r.1.frame_no }, 0,
        [ExtCall.multiblock_process
          (2 * (r.1.data.getD 2 false).toNat + (r.1.data.getD 1 false).toNat)])

/-- `process_frame`, part 1: dispatch on the channel type (the traffic
path is unimplemented and returns `-1`). -/
def process_frame_dispatch (ext : Ext) (p1 : PhysCh) (f : Frame) :
    PhysCh × Frame × Int × List ExtCall :=
  match p1.rch_type with
  | RchType.CONTROL => (p1, process_frame_cch ext p1 f)
  | RchType.TRAFFIC => (p1, f, -1, [])

/-- `process_frame`, part 2: run SCR detection while
`scr == PHYS_CH_SCR_DETECT`, then dispatch on the channel type. -/
def process_frame (ext : Ext) (p : PhysCh) (f : Frame) : PhysCh × Frame × Int × List ExtCall :=
  process_frame_dispatch ext (if p.scr = none then detect_scr ext p f else p) f

/-- The frame-counter update after `process_frame` in the main loop:
`if (frame.frame_no != FRAME_NO_UNKNOWN) frame_no = (frame.frame_no + 1) % 200`. -/
def advance_frame_no (q : PhysCh × Frame × Int × List ExtCall) : PhysCh :=
  match q.2.1.frame_no with
  | none => q.1
  | some n => { q.1 with frame_no := some ((n + 1) % 200) }

lemma get_frame_emit_data (p : PhysCh) (e : Nat) :
    (get_frame_emit p e).1.data = p.data.drop FRAME_LEN := rfl

lemma get_frame_got_length (p : PhysCh) (f : Frame)
    (h : (get_frame p).2 = GetFrameRes.got f) :
    (get_frame p).1.data.length + FRAME_LEN = p.data.length := by
  unfold get_frame at h ⊢
  split at h
  · simp at h
  · rename_i hlen
    rw [if_neg hlen]
    split at h
    · rename_i hbad
      rw [if_pos hbad]
      split at h
      · simp at h
      · rename_i hlost
        rw [if_neg hlost, get_frame_emit_data, List.length_drop]
        show p.data.length - FRAME_LEN + FRAME_LEN = p.data.length
        omega
    · rename_i hgood
      rw [if_neg hgood, get_frame_emit_data, List.length_drop]
      show p.data.length - FRAME_LEN + FRAME_LEN = p.data.length
      omega

lemma get_frame_has_sync (p : PhysCh) :
    (get_frame p).1.has_frame_sync = p.has_frame_sync := by
  unfold get_frame get_frame_emit
  split
  · rfl
  · split
    · split
      · rfl
      · rfl
    · rfl

lemma detect_scr_data (ext : Ext) (p : PhysCh) (f : Frame) :
    (detect_scr ext p f).data = p.data := by
  unfold detect_scr detect_commit
  split <;> rfl

lemma detect_scr_has_sync (ext : Ext) (p : PhysCh) (f : Frame) :
    (detect_scr ext p f).has_frame_sync = p.has_frame_sync := by
  unfold detect_scr detect_commit
  split <;> rfl

lemma process_frame_fst (ext : Ext) (p : PhysCh) (f : Frame) :
    (process_frame ext p f).1 = if p.scr = none then detect_scr ext p f else p := by
  unfold process_frame process_frame_dispatch
  split <;> rfl

lemma process_frame_data (ext : Ext) (p : PhysCh) (f : Frame) :
    (process_frame ext p f).1.data = p.data := by
  rw [process_frame_fst]
  split
  · exact detect_scr_data ext p f
  · rfl

lemma process_frame_has_sync (ext : Ext) (p : PhysCh) (f : Frame) :
    (process_frame ext p f).1.has_frame_sync = p.has_frame_sync := by
  rw [process_frame_fst]
  split
  · exact detect_scr_has_sync ext p f
  · rfl

lemma advance_frame_no_data (q : PhysCh × Frame × Int × List ExtCall) :
    (advance_frame_no q).data = q.1.data := by
  unfold advance_frame_no
  split <;> rfl

lemma advance_frame_no_has_sync (q : PhysCh × Frame × Int × List ExtCall) :
    (advance_frame_no q).has_frame_sync = q.1.has_frame_sync := by
  unfold advance_frame_no
  split <;> rfl

/-- The frame loop of `tetrapol_phys_ch_process`:
`while ((r = get_frame(phys_ch, &frame)) > 0) { ... }`.  The `Bool`
result records whether the loop ended with `r == -1` (sync lost). -/
def process_loop (ext : Ext) (p : PhysCh) : PhysCh × Bool :=
  match hr : (get_frame p).2 with
  | GetFrameRes.noData => ((get_frame p).1, false)
  | GetFrameRes.syncLost => ((get_frame p).1, true)
  | GetFrameRes.got f =>
    process_loop ext (advance_frame_no (process_frame ext (get_frame p).1 f))
termination_by p.data.length
decreasing_by
  rw [advance_frame_no_data, process_frame_data]
  have h := get_frame_got_length p f hr
  have hpos : 0 < FRAME_LEN := by decide
  omega

/-- `tetrapol_phys_ch_process`: acquire sync when needed, then extract
and process frames until the buffer is exhausted or sync is lost. -/
def tetrapol_phys_ch_process (ext : Ext) (p : PhysCh) : PhysCh × Int × List ExtCall :=
  if (processAcquire p).2.1 then
    (if (process_loop ext (processAcquire p).1).2 then
      { (process_loop ext (processAcquire p).1).1 with has_frame_sync := false }
     else (process_loop ext (processAcquire p).1).1, 0, (processAcquire p).2.2)
  else ((processAcquire p).1, 0, (processAcquire p).2.2)

/-- Iterate `get_frame`, recording after each call the updated
`total_sync_err` and whether that call reported sync loss. -/
def runTotals : Nat → PhysCh → List (Nat × Bool)
  | 0, _ => []
  | n + 1, p =>
    ((get_frame p).1.total_sync_err, decide ((get_frame p).2 = GetFrameRes.syncLost)) ::
      runTotals n (get_frame p).1

/-- A freshly created UHF control channel
(`tetrapol_phys_ch_create(TETRAPOL_BAND_UHF, TETRAPOL_RCH_CONTROL)`),
except that `scr` is pinned to key 0 where a test needs a committed key. -/
def baseState : PhysCh :=
  { band := Band.UHF, rch_type := RchType.CONTROL, last_sync_err := 0, total_sync_err := 0,
    has_frame_sync := false, frame_no := none, scr := some 0, scr_guess := 0,
    scr_confidence := 50, scr_stat := List.replicate 128 0, data := [] }

/-- The 160-bit frame used by concrete test states: a well-formed header
(seed bit plus `frame_dsync`) followed by an all-zero payload. -/
def syncFrame : List Bool :=
  (false :: frame_dsync) ++ List.replicate FRAME_DATA_LEN false

/-- Concrete state for exercising acquisition: two clean consecutive
frames plus a partial tail, no sync yet. -/
def w1State : PhysCh :=
  { baseState with data := syncFrame ++ syncFrame ++ List.replicate 9 false }

lemma getD_map_range {α : Type} (n i : Nat) (f : Nat → α) (d : α) (h : i < n) :
    ((List.range n).map f).getD i d = f i := by
  rw [List.getD_eq_getElem _ _ (by simpa using h)]
  simp

lemma getD_set_self {α : Type} (l : List α) (j : Nat) (v d : α) (h : j < l.length) :
    (l.set j v).getD j d = v := by
  rw [List.getD_eq_getElem _ _ (by simpa using h)]
  simp [List.getElem_set_self]

lemma getD_set_ne {α : Type} (l : List α) (j k : Nat) (v d : α) (h : j ≠ k) :
    (l.set j v).getD k d = l.getD k d := by
  simp [List.getD_eq_getD_get?, List.getElem?_set_ne h]

lemma getD_drop {α : Type} (l : List α) (m n : Nat) (d : α) :
    (l.drop m).getD n d = l.getD (m + n) d := by
  simp [List.getD_eq_getD_get?, List.getElem?_drop]

lemma getD_replicate_zero (n k : Nat) : (List.replicate n (0 : Int)).getD k 0 = 0 := by
  rcases Nat.lt_or_ge k n with h | h
  · rw [List.getD_eq_getElem _ _ (by simpa using h)]
    simp
  · rw [List.getD_eq_default _ _ (by simpa using h)]

lemma findSyncFrom_some (data : List Bool) :
    ∀ (n offs o : Nat), data.length - offs ≤ n → findSyncFrom data offs = some o →
      offs ≤ o ∧ o + (FRAME_LEN + FRAME_HDR_LEN) < data.length ∧
      syncErrAt data o ≤ MAX_FRAME_SYNC_ERR ∧
      ∀ o', offs ≤ o' → o' < o → MAX_FRAME_SYNC_ERR < syncErrAt data o' := by
  intro n
  induction n with
  | zero =>
    intro offs o hn h
    unfold findSyncFrom at h
    rw [dif_neg (by omega)] at h
    exact absurd h (by simp)
  | succ n ih =>
    intro offs o hn h
    unfold findSyncFrom at h
    by_cases hc : offs + (FRAME_LEN + FRAME_HDR_LEN) < data.length
    · rw [dif_pos hc] at h
      by_cases he : syncErrAt data offs ≤ MAX_FRAME_SYNC_ERR
      · rw [if_pos he] at h
        injection h with h
        subst h
        exact ⟨le_refl _, hc, he, fun o' h1 h2 => absurd h2 (by omega)⟩
      · rw [if_neg he] at h
        obtain ⟨h1, h2, h3, h4⟩ := ih (offs + 1) o (by omega) h
        refine ⟨by omega, h2, h3, fun o' h5 h6 => ?_⟩
        rcases Nat.eq_or_lt_of_le h5 with h7 | h7
        · rw [← h7]
          exact Nat.not_le.mp he
        · exact h4 o' h7 h6
    · rw [dif_neg hc] at h
      exact absurd h (by simp)

lemma findSyncFrom_none (data : List Bool) :
    ∀ (n offs : Nat), data.length - offs ≤ n → findSyncFrom data offs = none →
      ∀ o, offs ≤ o → o + (FRAME_LEN + FRAME_HDR_LEN) < data.length →
        MAX_FRAME_SYNC_ERR < syncErrAt data o := by
  intro n
  induction n with
  | zero =>
    intro offs hn _h o h1 h2
    omega
  | succ n ih =>
    intro offs hn h o h1 h2
    unfold findSyncFrom at h
    by_cases hc : offs + (FRAME_LEN + FRAME_HDR_LEN) < data.length
    · rw [dif_pos hc] at h
      by_cases he : syncErrAt data offs ≤ MAX_FRAME_SYNC_ERR
      · rw [if_pos he] at h
        exact absurd h (by simp)
      · rw [if_neg he] at h
        rcases Nat.eq_or_lt_of_le h1 with h3 | h3
        · rw [← h3]
          exact Nat.not_le.mp he
        · exact ih (offs + 1) (by omega) h o h3 h2
    · omega

/-- Claim C1: when `has_frame_sync` is false, acquisition scans offsets
`o` with `o + FRAME_LEN + FRAME_HDR_LEN < length`, accepts the first
offset whose combined error `cmp(o) + cmp(o + FRAME_LEN)` is at most
`MAX_FRAME_SYNC_ERR = 1`; on accept exactly the first `o` bits are
discarded, `has_frame_sync` becomes true, `last_sync_err` and
`total_sync_err` reset to 0, `frame_no` becomes unknown, and the
multiblock and segmentation layers are reset; when no offset matches,
all but the last `FRAME_LEN + FRAME_HDR_LEN = 168` bits are discarded
and no sync is reported. -/
theorem C1_sync_acquisition (p : PhysCh) (hsync : p.has_frame_sync = false) :
    (∀ o, findSyncFrom p.data 0 = some o →
      o + (FRAME_LEN + FRAME_HDR_LEN) < p.data.length ∧
      syncErrAt p.data o ≤ MAX_FRAME_SYNC_ERR ∧
      (∀ o', o' < o → MAX_FRAME_SYNC_ERR < syncErrAt p.data o') ∧
      (processAcquire p).1.data = p.data.drop o ∧
      (processAcquire p).2.1 = true ∧
      (processAcquire p).1.has_frame_sync = true ∧
      (processAcquire p).1.last_sync_err = 0 ∧
      (processAcquire p).1.total_sync_err = 0 ∧
      (processAcquire p).1.frame_no = none ∧
      (processAcquire p).2.2 = [ExtCall.multiblock_reset, ExtCall.segmentation_reset]) ∧
    (findSyncFrom p.data 0 = none →
      (∀ o, o + (FRAME_LEN + FRAME_HDR_LEN) < p.data.length →
        MAX_FRAME_SYNC_ERR < syncErrAt p.data o) ∧
      (processAcquire p).1.data =
        p.data.drop (p.data.length - (FRAME_LEN + FRAME_HDR_LEN)) ∧
      (processAcquire p).2.1 = false ∧
      (processAcquire p).1.has_frame_sync = false ∧
      (processAcquire p).2.2 = []) := by
  constructor
  · intro o hfind
    obtain ⟨-, h2, h3, h4⟩ :=
      findSyncFrom_some p.data p.data.length 0 o (by omega) hfind
    refine ⟨h2, h3, fun o' ho' => h4 o' (Nat.zero_le _) ho', ?_, ?_, ?_, ?_, ?_, ?_, ?_⟩ <;>
      simp [processAcquire, find_frame_sync, hsync, hfind]
  · intro hfind
    refine ⟨fun o ho =>
        findSyncFrom_none p.data p.data.length 0 (by omega) hfind o (Nat.zero_le _) ho,
      ?_, ?_, ?_, ?_⟩ <;>
      simp [processAcquire, find_frame_sync, hsync, hfind]

/-- Witness for C1 at a concrete unsynced state. -/
theorem C1_sync_acquisition_witness :
    w1State.has_frame_sync = false ∧
    ((∀ o, findSyncFrom w1State.data 0 = some o →
      o + (FRAME_LEN + FRAME_HDR_LEN) < w1State.data.length ∧
      syncErrAt w1State.data o ≤ MAX_FRAME_SYNC_ERR ∧
      (∀ o', o' < o → MAX_FRAME_SYNC_ERR < syncErrAt w1State.data o') ∧
      (processAcquire w1State).1.data = w1State.data.drop o ∧
      (processAcquire w1State).2.1 = true ∧
      (processAcquire w1State).1.has_frame_sync = true ∧
      (processAcquire w1State).1.last_sync_err = 0 ∧
      (processAcquire w1State).1.total_sync_err = 0 ∧
      (processAcquire w1State).1.frame_no = none ∧
      (processAcquire w1State).2.2 =
        [ExtCall.multiblock_reset, ExtCall.segmentation_reset]) ∧
    (findSyncFrom w1State.data 0 = none →
      (∀ o, o + (FRAME_LEN + FRAME_HDR_LEN) < w1State.data.length →
        MAX_FRAME_SYNC_ERR < syncErrAt w1State.data o) ∧
      (processAcquire w1State).1.data =
        w1State.data.drop (w1State.data.length - (FRAME_LEN + FRAME_HDR_LEN)) ∧
      (processAcquire w1State).2.1 = false ∧
      (processAcquire w1State).1.has_frame_sync = false ∧
      (processAcquire w1State).2.2 = [])) :=
  ⟨rfl, C1_sync_acquisition w1State rfl⟩

/-- Concrete state for exercising sync loss: synced, with eight frames
of all-zero bits, so that every header compares with 4 errors. -/
def badState : PhysCh :=
  { baseState with has_frame_sync := true, data := List.replicate (8 * FRAME_LEN) false }

lemma process_loop_has_sync (ext : Ext) :
    ∀ (n : Nat) (p : PhysCh), p.data.length ≤ n →
      (process_loop ext p).1.has_frame_sync = p.has_frame_sync := by
  intro n
  induction n with
  | zero =>
    intro p hn
    rw [process_loop]
    split
    · exact get_frame_has_sync p
    · exact get_frame_has_sync p
    · rename_i f hr
      have := get_frame_got_length p f hr
      have hpos : 0 < FRAME_LEN := by decide
      omega
  | succ n ih =>
    intro p hn
    rw [process_loop]
    split
    · exact get_frame_has_sync p
    · exact get_frame_has_sync p
    · rename_i f hr
      have hlen := get_frame_got_length p f hr
      have hpos : 0 < FRAME_LEN := by decide
      rw [ih _ (by
        rw [advance_frame_no_data, process_frame_data]
        omega)]
      rw [advance_frame_no_has_sync, process_frame_has_sync, get_frame_has_sync]

set_option maxRecDepth 40000 in
/-- Claim C2: while synced, if `sync_err + last_sync_err > 1` then
`total_sync_err` becomes `1 + 2*total_sync_err`, otherwise it resets to
0; sync loss is reported exactly when the updated counter reaches
`FRAME_LEN = 160` (and then `has_frame_sync` becomes false); starting
from 0, a run of failing frames produces 1, 3, 7, 15, 31, 63, 127, 255,
losing sync on the 8th frame. -/
theorem C2_sync_tracking :
    (∀ p : PhysCh, p.has_frame_sync = true → FRAME_LEN ≤ p.data.length →
      (MAX_FRAME_SYNC_ERR < cmp_frame_sync p.data + p.last_sync_err →
        (get_frame p).1.total_sync_err = 1 + 2 * p.total_sync_err) ∧
      (cmp_frame_sync p.data + p.last_sync_err ≤ MAX_FRAME_SYNC_ERR →
        (get_frame p).1.total_sync_err = 0) ∧
      ((get_frame p).2 = GetFrameRes.syncLost ↔
        MAX_FRAME_SYNC_ERR < cmp_frame_sync p.data + p.last_sync_err ∧
        FRAME_LEN ≤ 1 + 2 * p.total_sync_err)) ∧
    (∀ (ext : Ext) (p : PhysCh), p.has_frame_sync = true →
      ((tetrapol_phys_ch_process ext p).1.has_frame_sync = false ↔
        (process_loop ext p).2 = true)) ∧
    runTotals 8 badState =
      [(1, false), (3, false), (7, false), (15, false),
        (31, false), (63, false), (127, false), (255, true)] := by
  refine ⟨?_, ?_, ?_⟩
  · intro p _ hlen
    have hnot : ¬ p.data.length < FRAME_LEN := by omega
    refine ⟨?_, ?_, ?_⟩
    · intro hbad
      unfold get_frame
      rw [if_neg hnot, if_pos hbad]
      split
      · rfl
      · rfl
    · intro hgood
      unfold get_frame
      rw [if_neg hnot, if_neg (by omega)]
      rfl
    · constructor
      · intro h
        unfold get_frame at h
        rw [if_neg hnot] at h
        by_cases hbad : cmp_frame_sync p.data + p.last_sync_err > MAX_FRAME_SYNC_ERR
        · rw [if_pos hbad] at h
          by_cases hlost : 1 + 2 * p.total_sync_err ≥ FRAME_LEN
          · exact ⟨hbad, hlost⟩
          · rw [if_neg hlost] at h
            simp [get_frame_emit] at h
        · rw [if_neg hbad] at h
          simp [get_frame_emit] at h
      · rintro ⟨hbad, hlost⟩
        unfold get_frame
        rw [if_neg hnot, if_pos hbad, if_pos hlost]
  · intro ext p hsync
    have hacq : processAcquire p = (p, true, []) := by
      unfold processAcquire
      rw [hsync]
      simp
    unfold tetrapol_phys_ch_process
    rw [hacq]
    by_cases hl : (process_loop ext p).2 = true
    · simp [hl]
    · have hps := process_loop_has_sync ext p.data.length p (le_refl _)
      simp only [Bool.not_eq_true] at hl
      simp [hl, hps, hsync]
  · decide

set_option maxRecDepth 40000 in
/-- Witness for C2 at concrete synced states. -/
theorem C2_sync_tracking_witness :
    (badState.has_frame_sync = true ∧ FRAME_LEN ≤ badState.data.length ∧
      ((MAX_FRAME_SYNC_ERR < cmp_frame_sync badState.data + badState.last_sync_err →
        (get_frame badState).1.total_sync_err = 1 + 2 * badState.total_sync_err) ∧
      (cmp_frame_sync badState.data + badState.last_sync_err ≤ MAX_FRAME_SYNC_ERR →
        (get_frame badState).1.total_sync_err = 0) ∧
      ((get_frame badState).2 = GetFrameRes.syncLost ↔
        MAX_FRAME_SYNC_ERR < cmp_frame_sync badState.data + badState.last_sync_err ∧
        FRAME_LEN ≤ 1 + 2 * badState.total_sync_err))) ∧
    ∀ (ext : Ext),
      ((tetrapol_phys_ch_process ext badState).1.has_frame_sync = false ↔
        (process_loop ext badState).2 = true) :=
  ⟨⟨rfl, by decide, C2_sync_tracking.1 badState rfl (by decide)⟩,
    fun ext => C2_sync_tracking.2.1 ext badState rfl⟩

/-- An all-zero 152-bit frame, used as concrete input by several tests. -/
def zeroFrame : Frame := { frame_no := none, data := List.replicate 152 false }

lemma channel_decoder_res_len (input : List Bool) (m : Nat) :
    (channel_decoder input m).1.length = m := by
  simp [channel_decoder]

lemma channel_decoder_err_len (input : List Bool) (m : Nat) :
    (channel_decoder input m).2.1.length = m := by
  simp [channel_decoder]

lemma channel_decoder_errs (input : List Bool) (m : Nat) :
    (channel_decoder input m).2.2 = (channel_decoder input m).2.1.countP id := rfl

lemma channel_decoder_res_getD (input : List Bool) (m i : Nat) (h : i < m) :
    (channel_decoder input m).1.getD i false =
      xor (input.getD ((2 * i + 2) % (2 * m)) false)
        (input.getD ((2 * i + 3) % (2 * m)) false) := by
  simp only [channel_decoder]
  rw [getD_map_range m i _ false h]

lemma channel_decoder_err_getD (input : List Bool) (m i : Nat) (h : i < m) :
    (channel_decoder input m).2.1.getD i false =
      xor ((channel_decoder input m).1.getD i false)
        (xor (input.getD ((2 * i + 5) % (2 * m)) false)
          (xor (input.getD ((2 * i + 6) % (2 * m)) false)
            (input.getD ((2 * i + 7) % (2 * m)) false))) := by
  simp only [channel_decoder]
  simp only [getD_map_range, h]
  exact Bool.xor_comm _ _

/-- Claim C3: on a 152-bit deinterleaved input the decoder produces 76
output bits and 76 erasure flags, with `res[i] = in[2i+2] XOR in[2i+3]`
and `err[i] = res[i] XOR in[2i+5] XOR in[2i+6] XOR in[2i+7]`, indices
taken modulo the segment length; the first 26 outputs come from
`in[0..51]` modulo 52, the next 50 from `in[52..151]` modulo 100, and
the returned error count is the sum of all 76 erasure flags. -/
theorem C3_convolutional_decode (f : Frame) (h : f.data.length = 152) :
    (frame_decode_data f).1.data.length = 76 ∧
    (frame_decode_data f).1.err.length = 76 ∧
    (frame_decode_data f).2 = (frame_decode_data f).1.err.countP id ∧
    (∀ i, i < 26 → (frame_decode_data f).1.data.getD i false =
      xor (f.data.getD ((2 * i + 2) % 52) false) (f.data.getD ((2 * i + 3) % 52) false)) ∧
    (∀ i, i < 26 → (frame_decode_data f).1.err.getD i false =
      xor ((frame_decode_data f).1.data.getD i false)
        (xor (f.data.getD ((2 * i + 5) % 52) false)
          (xor (f.data.getD ((2 * i + 6) % 52) false)
            (f.data.getD ((2 * i + 7) % 52) false)))) ∧
    (∀ i, i < 50 → (frame_decode_data f).1.data.getD (26 + i) false =
      xor (f.data.getD (52 + (2 * i + 2) % 100) false)
        (f.data.getD (52 + (2 * i + 3) % 100) false)) ∧
    (∀ i, i < 50 → (frame_decode_data f).1.err.getD (26 + i) false =
      xor ((frame_decode_data f).1.data.getD (26 + i) false)
        (xor (f.data.getD (52 + (2 * i + 5) % 100) false)
          (xor (f.data.getD (52 + (2 * i + 6) % 100) false)
            (f.data.getD (52 + (2 * i + 7) % 100) false)))) := by
  refine ⟨?_, ?_, ?_, ?_, ?_, ?_, ?_⟩
  · simp [frame_decode_data, channel_decoder]
  · simp [frame_decode_data, channel_decoder]
  · simp only [frame_decode_data]
    rw [channel_decoder_errs, channel_decoder_errs, List.countP_append]
  · intro i hi
    simp only [frame_decode_data]
    rw [List.getD_append _ _ _ _ (by rw [channel_decoder_res_len]; exact hi)]
    rw [channel_decoder_res_getD f.data 26 i hi]
  · intro i hi
    simp only [frame_decode_data]
    rw [List.getD_append _ _ _ _ (by rw [channel_decoder_err_len]; exact hi)]
    rw [List.getD_append _ _ _ _ (by rw [channel_decoder_res_len]; exact hi)]
    rw [channel_decoder_err_getD f.data 26 i hi]
  · intro i hi
    simp only [frame_decode_data]
    rw [List.getD_append_right _ _ _ _ (by rw [channel_decoder_res_len]; omega)]
    rw [channel_decoder_res_len, Nat.add_sub_cancel_left]
    rw [channel_decoder_res_getD _ 50 i hi]
    rw [getD_drop, getD_drop]
  · intro i hi
    simp only [frame_decode_data]
    rw [List.getD_append_right _ _ _ _ (by rw [channel_decoder_err_len]; omega)]
    rw [List.getD_append_right _ _ _ _ (by rw [channel_decoder_res_len]; omega)]
    rw [channel_decoder_err_len, channel_decoder_res_len, Nat.add_sub_cancel_left]
    rw [channel_decoder_err_getD _ 50 i hi]
    rw [getD_drop, getD_drop, getD_drop]

set_option maxRecDepth 8192 in
/-- Witness for C3 at the all-zero 152-bit frame. -/
theorem C3_convolutional_decode_witness :
    zeroFrame.data.length = 152 ∧
    ((frame_decode_data zeroFrame).1.data.length = 76 ∧
    (frame_decode_data zeroFrame).1.err.length = 76 ∧
    (frame_decode_data zeroFrame).2 = (frame_decode_data zeroFrame).1.err.countP id ∧
    (∀ i, i < 26 → (frame_decode_data zeroFrame).1.data.getD i false =
      xor (zeroFrame.data.getD ((2 * i + 2) % 52) false)
        (zeroFrame.data.getD ((2 * i + 3) % 52) false)) ∧
    (∀ i, i < 26 → (frame_decode_data zeroFrame).1.err.getD i false =
      xor ((frame_decode_data zeroFrame).1.data.getD i false)
        (xor (zeroFrame.data.getD ((2 * i + 5) % 52) false)
          (xor (zeroFrame.data.getD ((2 * i + 6) % 52) false)
            (zeroFrame.data.getD ((2 * i + 7) % 52) false)))) ∧
    (∀ i, i < 50 → (frame_decode_data zeroFrame).1.data.getD (26 + i) false =
      xor (zeroFrame.data.getD (52 + (2 * i + 2) % 100) false)
        (zeroFrame.data.getD (52 + (2 * i + 3) % 100) false)) ∧
    (∀ i, i < 50 → (frame_decode_data zeroFrame).1.err.getD (26 + i) false =
      xor ((frame_decode_data zeroFrame).1.data.getD (26 + i) false)
        (xor (zeroFrame.data.getD (52 + (2 * i + 5) % 100) false)
          (xor (zeroFrame.data.getD (52 + (2 * i + 6) % 100) false)
            (zeroFrame.data.getD (52 + (2 * i + 7) % 100) false))))) :=
  ⟨by decide, C3_convolutional_decode zeroFrame (by decide)⟩

set_option maxRecDepth 8192 in
/-- Claim C4: descrambling with key 0 is the identity; with any other
key it XORs payload bit `k` (for `k < 152`) with
`scramb_table[(k + scr) mod 127]`, and the 127-entry table is exactly
the LFSR sequence with `s[0..6] = 1` and `s[k] = s[k-1] XOR s[k-7]`. -/
theorem C4_descramble (data : List Bool) (scr : Nat) (h : data.length = 152) :
    frame_descramble data 0 = data ∧
    (scr ≠ 0 → ∀ k, k < 152 → (frame_descramble data scr).getD k false =
      xor (data.getD k false) (scramb_table.getD ((k + scr) % 127) false)) ∧
    scramb_table.length = 127 ∧
    (∀ k, k < 7 → scramb_table.getD k false = true) ∧
    (∀ k, k < 127 → 7 ≤ k →
      scramb_table.getD k false =
        xor (scramb_table.getD (k - 1) false) (scramb_table.getD (k - 7) false)) := by
  refine ⟨rfl, ?_, by decide, by decide, by decide⟩
  intro hscr k hk
  unfold frame_descramble
  rw [if_neg hscr]
  exact getD_map_range FRAME_DATA_LEN k _ false hk

set_option maxRecDepth 8192 in
/-- Witness for C4 at the all-zero payload and key 5. -/
theorem C4_descramble_witness :
    (List.replicate 152 false).length = 152 ∧
    (frame_descramble (List.replicate 152 false) 0 = List.replicate 152 false ∧
    ((5 : Nat) ≠ 0 → ∀ k, k < 152 →
      (frame_descramble (List.replicate 152 false) 5).getD k false =
      xor ((List.replicate 152 false).getD k false)
        (scramb_table.getD ((k + 5) % 127) false)) ∧
    scramb_table.length = 127 ∧
    (∀ k, k < 7 → scramb_table.getD k false = true) ∧
    (∀ k, k < 127 → 7 ≤ k →
      scramb_table.getD k false =
        xor (scramb_table.getD (k - 1) false) (scramb_table.getD (k - 7) false))) :=
  ⟨by decide, C4_descramble (List.replicate 152 false) 5 (by decide)⟩

/-- Claim C9: `recv` returns `min(requested, 10*FRAME_LEN - length)` and
appends exactly that many bits, so the buffer never exceeds
`10*FRAME_LEN = 1600` bits (the frame-sync scan and frame extraction
only shrink it); receiving `10*FRAME_LEN + 100` bits into an empty
buffer accepts exactly `10*FRAME_LEN`. -/
theorem C9_bounded_intake (p : PhysCh) (buf : List Bool)
    (h : p.data.length ≤ 10 * FRAME_LEN) :
    (tetrapol_recv2 p buf).2 = min buf.length (10 * FRAME_LEN - p.data.length) ∧
    (tetrapol_recv2 p buf).1.data = p.data ++ buf.take (tetrapol_recv2 p buf).2 ∧
    (tetrapol_recv2 p buf).1.data.length = p.data.length + (tetrapol_recv2 p buf).2 ∧
    (tetrapol_recv2 p buf).1.data.length ≤ 10 * FRAME_LEN ∧
    (find_frame_sync p).1.data.length ≤ p.data.length ∧
    (get_frame p).1.data.length ≤ p.data.length ∧
    (tetrapol_recv2 { p with data := [] }
      (List.replicate (10 * FRAME_LEN + 100) false)).2 = 10 * FRAME_LEN := by
  refine ⟨rfl, rfl, ?_, ?_, ?_, ?_, ?_⟩
  · simp only [tetrapol_recv2]
    simp [List.length_take]
  · simp only [tetrapol_recv2]
    simp [List.length_take]
    omega
  · unfold find_frame_sync
    split
    · simp [List.length_drop]
    · simp [List.length_drop]
  · unfold get_frame get_frame_emit
    split
    · simp
    · split
      · split
        · simp
        · simp [List.length_drop]
      · simp [List.length_drop]
  · simp [tetrapol_recv2]

/-- Witness for C9 at an empty buffer. -/
theorem C9_bounded_intake_witness :
    baseState.data.length ≤ 10 * FRAME_LEN ∧
    ((tetrapol_recv2 baseState [true, true, false]).2 =
      min ([true, true, false] : List Bool).length (10 * FRAME_LEN - baseState.data.length) ∧
    (tetrapol_recv2 baseState [true, true, false]).1.data =
      baseState.data ++ ([true, true, false] : List Bool).take
        (tetrapol_recv2 baseState [true, true, false]).2 ∧
    (tetrapol_recv2 baseState [true, true, false]).1.data.length =
      baseState.data.length + (tetrapol_recv2 baseState [true, true, false]).2 ∧
    (tetrapol_recv2 baseState [true, true, false]).1.data.length ≤ 10 * FRAME_LEN ∧
    (find_frame_sync baseState).1.data.length ≤ baseState.data.length ∧
    (get_frame baseState).1.data.length ≤ baseState.data.length ∧
    (tetrapol_recv2 { baseState with data := [] }
      (List.replicate (10 * FRAME_LEN + 100) false)).2 = 10 * FRAME_LEN) :=
  ⟨by decide, C9_bounded_intake baseState [true, true, false] (by decide)⟩

/-- Concrete synced state whose next header compares with 4 errors and
whose accumulated counter is large enough that the next `get_frame`
declares sync loss. -/
def w7State : PhysCh :=
  { baseState with
      has_frame_sync := true
      total_sync_err := 100
      data := List.replicate 160 false }

set_option maxRecDepth 8192 in
/-- Claim C7 counterexample: this `get_frame` call finds `FRAME_LEN`
buffered bits and takes the sync-loss branch; it returns before the
store `last_sync_err = sync_err`, leaving `last_sync_err = 0` although
the current `sync_err` is 4. -/
theorem C7_counterexample :
    FRAME_LEN ≤ w7State.data.length ∧
    cmp_frame_sync w7State.data = 4 ∧
    (get_frame w7State).2 = GetFrameRes.syncLost ∧
    (get_frame w7State).1.last_sync_err = 0 ∧
    (get_frame w7State).1.last_sync_err ≠ cmp_frame_sync w7State.data := by
  decide

/-- Claim C7 (amended): when at least `FRAME_LEN` bits are buffered,
`get_frame` stores `last_sync_err ← sync_err` exactly when it does not
declare sync loss; on the sync-loss branch it returns early and
`last_sync_err` is unchanged. -/
theorem C7_last_sync_err (p : PhysCh) (h : FRAME_LEN ≤ p.data.length) :
    ((get_frame p).2 ≠ GetFrameRes.syncLost →
      (get_frame p).1.last_sync_err = cmp_frame_sync p.data) ∧
    ((get_frame p).2 = GetFrameRes.syncLost →
      (get_frame p).1.last_sync_err = p.last_sync_err) := by
  have hnot : ¬ p.data.length < FRAME_LEN := by omega
  unfold get_frame
  rw [if_neg hnot]
  by_cases hbad : cmp_frame_sync p.data + p.last_sync_err > MAX_FRAME_SYNC_ERR
  · rw [if_pos hbad]
    by_cases hlost : 1 + 2 * p.total_sync_err ≥ FRAME_LEN
    · rw [if_pos hlost]
      exact ⟨fun hne => absurd rfl hne, fun _ => rfl⟩
    · rw [if_neg hlost]
      exact ⟨fun _ => rfl, fun hl => absurd hl (by simp [get_frame_emit])⟩
  · rw [if_neg hbad]
    exact ⟨fun _ => rfl, fun hl => absurd hl (by simp [get_frame_emit])⟩

set_option maxRecDepth 8192 in
/-- Witness for the amended C7 at a concrete synced state. -/
theorem C7_last_sync_err_witness :
    FRAME_LEN ≤ w7State.data.length ∧
    (((get_frame w7State).2 ≠ GetFrameRes.syncLost →
      (get_frame w7State).1.last_sync_err = cmp_frame_sync w7State.data) ∧
    ((get_frame w7State).2 = GetFrameRes.syncLost →
      (get_frame w7State).1.last_sync_err = w7State.last_sync_err)) :=
  ⟨by decide, C7_last_sync_err w7State (by decide)⟩

/-- The external collaborators used by concrete tests: a CRC validator
that always fails and `FRAME_TYPE_DATA = 1`. -/
def extFalse : Ext := { check_crc := fun _ => false, FRAME_TYPE_DATA := true }

/-- Claim C8: on the UHF control channel, if the convolutional error
count is nonzero, or `data[0] != FRAME_TYPE_DATA`, or the CRC check
fails, then the multiblock and segmentation layers are reset,
`multiblock_process` is not called, the frame is dropped (its frame
number is not promoted), the call returns 0, and `has_frame_sync` is
untouched. -/
theorem C8_cch_error_handling (ext : Ext) (p : PhysCh) (f : Frame)
    (hband : p.band = Band.UHF)
    (herr : (frame_decode_data (cch_transformed p f)).2 ≠ 0 ∨
      (frame_decode_data (cch_transformed p f)).1.data.getD 0 false ≠ ext.FRAME_TYPE_DATA ∨
      ext.check_crc (frame_decode_data (cch_transformed p f)).1 = false) :
    (process_frame_cch ext p f).2.2 =
      [ExtCall.multiblock_reset, ExtCall.segmentation_reset] ∧
    (∀ b, ExtCall.multiblock_process b ∉ (process_frame_cch ext p f).2.2) ∧
    (process_frame_cch ext p f).2.1 = 0 ∧
    (process_frame_cch ext p f).1.frame_no = f.frame_no ∧
    (process_frame ext p f).1.has_frame_sync = p.has_frame_sync := by
  have hmain : process_frame_cch ext p f =
      (cch_transformed p f, 0, [ExtCall.multiblock_reset, ExtCall.segmentation_reset]) := by
    unfold process_frame_cch
    rw [hband]
    by_cases h1 : (frame_decode_data (cch_transformed p f)).2 ≠ 0
    · rw [if_pos h1]
    · rw [if_neg h1]
      by_cases h2 :
          (frame_decode_data (cch_transformed p f)).1.data.getD 0 false ≠ ext.FRAME_TYPE_DATA
      · rw [if_pos h2]
      · rw [if_neg h2]
        have h3 : ext.check_crc (frame_decode_data (cch_transformed p f)).1 = false := by
          rcases herr with h' | h' | h'
          · exact absurd h' h1
          · exact absurd h' h2
          · exact h'
        rw [if_pos h3]
  rw [hmain]
  refine ⟨rfl, ?_, rfl, rfl, process_frame_has_sync ext p f⟩
  intro b
  simp

/-- Witness for C8: a failing CRC drops the frame. -/
theorem C8_cch_error_handling_witness :
    baseState.band = Band.UHF ∧
    extFalse.check_crc (frame_decode_data (cch_transformed baseState zeroFrame)).1 = false ∧
    ((process_frame_cch extFalse baseState zeroFrame).2.2 =
      [ExtCall.multiblock_reset, ExtCall.segmentation_reset] ∧
    (∀ b, ExtCall.multiblock_process b ∉ (process_frame_cch extFalse baseState zeroFrame).2.2) ∧
    (process_frame_cch extFalse baseState zeroFrame).2.1 = 0 ∧
    (process_frame_cch extFalse baseState zeroFrame).1.frame_no = zeroFrame.frame_no ∧
    (process_frame extFalse baseState zeroFrame).1.has_frame_sync =
      baseState.has_frame_sync) :=
  ⟨rfl, rfl,
    C8_cch_error_handling extFalse baseState zeroFrame rfl (Or.inr (Or.inr rfl))⟩

/-- The inverse permutation of `interleave_data_UHF`. -/
def interleave_data_UHF_inv : List Nat :=
  (List.range 152).map fun i => interleave_data_UHF.indexOf i

lemma frame_deinterleave_getD (data : List Bool) (tbl : List Nat) (j : Nat)
    (h : j < 152) :
    (frame_deinterleave data tbl).getD j false = data.getD (tbl.getD j 0) false :=
  getD_map_range FRAME_DATA_LEN j _ false h

lemma frame_deinterleave_length (data : List Bool) (tbl : List Nat) :
    (frame_deinterleave data tbl).length = 152 := by
  simp [frame_deinterleave, FRAME_DATA_LEN]

lemma list_ext_getD (a b : List Bool) (ha : a.length = 152) (hb : b.length = 152)
    (h : ∀ j, j < 152 → a.getD j false = b.getD j false) : a = b := by
  apply List.ext_get (ha.trans hb.symm)
  intro n h1 h2
  have h3 := h n (by omega)
  rw [List.getD_eq_getElem a false (by omega), List.getD_eq_getElem b false (by omega)] at h3
  simpa using h3

set_option maxRecDepth 8192 in
/-- Claim C10: `interleave_data_UHF` contains every index in `[0,151]`
exactly once, all its entries are in bounds, and therefore
`frame_deinterleave` with this table is a bijection on 152-bit
payloads. -/
theorem C10_interleave_permutation :
    interleave_data_UHF.length = 152 ∧
    (∀ i, i < 152 → interleave_data_UHF.count i = 1) ∧
    (∀ j, j < 152 → interleave_data_UHF.getD j 0 < 152) ∧
    (∀ d d' : List Bool, d.length = 152 → d'.length = 152 →
      frame_deinterleave d interleave_data_UHF = frame_deinterleave d' interleave_data_UHF →
      d = d') ∧
    (∀ e : List Bool, e.length = 152 → ∃ d : List Bool, d.length = 152 ∧
      frame_deinterleave d interleave_data_UHF = e) := by
  have hbound : ∀ j, j < 152 → interleave_data_UHF.getD j 0 < 152 := by decide
  have hinv1 : ∀ j, j < 152 →
      interleave_data_UHF_inv.getD (interleave_data_UHF.getD j 0) 0 = j := by decide
  have hinv2 : ∀ i, i < 152 →
      interleave_data_UHF.getD (interleave_data_UHF_inv.getD i 0) 0 = i := by decide
  have hinvb : ∀ i, i < 152 → interleave_data_UHF_inv.getD i 0 < 152 := by decide
  refine ⟨by decide, by decide, hbound, ?_, ?_⟩
  · intro d d' hd hd' heq
    apply list_ext_getD d d' hd hd'
    intro i hi
    have hj := hinvb i hi
    have hji := hinv2 i hi
    have h1 : (frame_deinterleave d interleave_data_UHF).getD
        (interleave_data_UHF_inv.getD i 0) false =
        (frame_deinterleave d' interleave_data_UHF).getD
        (interleave_data_UHF_inv.getD i 0) false := by rw [heq]
    rw [frame_deinterleave_getD d _ _ hj, frame_deinterleave_getD d' _ _ hj, hji] at h1
    exact h1
  · intro e he
    refine ⟨frame_deinterleave e interleave_data_UHF_inv,
      frame_deinterleave_length _ _, ?_⟩
    apply list_ext_getD _ e (frame_deinterleave_length _ _) he
    intro j hj
    rw [frame_deinterleave_getD _ _ j hj,
      frame_deinterleave_getD e interleave_data_UHF_inv _ (hbound j hj),
      hinv1 j hj]

set_option maxRecDepth 8192 in
/-- Witness for C10: the all-false payload has a deinterleave preimage. -/
theorem C10_interleave_permutation_witness :
    (List.replicate 152 false).length = 152 ∧
    ∃ d : List Bool, d.length = 152 ∧
      frame_deinterleave d interleave_data_UHF = List.replicate 152 false :=
  ⟨by decide,
    C10_interleave_permutation.2.2.2.2 (List.replicate 152 false) (by decide)⟩

lemma foldl_set_length (u : Nat → Int → Int) :
    ∀ (l : List Nat) (st : List Int),
      (l.foldl (fun s j => s.set j (u j (s.getD j 0))) st).length = st.length := by
  intro l
  induction l with
  | nil => intro st; rfl
  | cons j rest ih =>
    intro st
    rw [List.foldl_cons, ih]
    exact List.length_set _ _ _

lemma foldl_set_getD (u : Nat → Int → Int) :
    ∀ (l : List Nat) (st : List Int), l.Nodup → (∀ j ∈ l, j < st.length) → ∀ k,
      (l.foldl (fun s j => s.set j (u j (s.getD j 0))) st).getD k 0 =
        if k ∈ l then u k (st.getD k 0) else st.getD k 0 := by
  intro l
  induction l with
  | nil =>
    intro st _ _ k
    simp
  | cons j rest ih =>
    intro st hnd hb k
    rw [List.foldl_cons]
    have hnd' := (List.nodup_cons.mp hnd).2
    have hj : j ∉ rest := (List.nodup_cons.mp hnd).1
    have hjlen : j < st.length := hb j (List.mem_cons_self j rest)
    have hb' : ∀ i ∈ rest, i < (st.set j (u j (st.getD j 0))).length := by
      intro i hi
      rw [List.length_set]
      exact hb i (List.mem_cons_of_mem j hi)
    rw [ih _ hnd' hb' k]
    by_cases hk : k ∈ rest
    · have hkj : k ≠ j := fun e => hj (e ▸ hk)
      rw [if_pos hk, if_pos (List.mem_cons_of_mem j hk),
        getD_set_ne _ j k _ _ (Ne.symm hkj)]
    · rw [if_neg hk]
      by_cases hkj : k = j
      · subst hkj
        rw [if_pos (List.mem_cons_self k rest), getD_set_self _ k _ _ hjlen]
      · rw [if_neg (by simp [hkj, hk]), getD_set_ne _ j k _ _ (Ne.symm hkj)]

/-- The per-key score update of `detect_scr` as a function of the old
score: penalty clamped at 0 on failure, reward of 1 otherwise. -/
def scrUpd (ext : Ext) (band : Band) (f : Frame) (k : Nat) (v : Int) : Int :=
  if scrFails ext band f k then clampDec2 v else v + 1

lemma scr_stat_update_eq (ext : Ext) (band : Band) (f : Frame) (stat : List Int) :
    scr_stat_update ext band f stat =
      (List.range 128).foldl
        (fun st k => st.set k (scrUpd ext band f k (st.getD k 0))) stat := by
  unfold scr_stat_update
  congr 1
  funext st k
  dsimp only
  unfold scrUpd scrFails
  by_cases h1 : (frame_decode_data { f with data := scr_pipeline band f.data k }).2 ≠ 0
  · rw [if_pos h1, if_pos (Or.inl h1)]
  · rw [if_neg h1]
    by_cases h2 :
        ext.check_crc (frame_decode_data { f with data := scr_pipeline band f.data k }).1 = false
    · rw [if_pos h2, if_pos (Or.inr h2)]
    · rw [if_neg h2, if_neg (by tauto)]

lemma scr_stat_update_length (ext : Ext) (band : Band) (f : Frame) (stat : List Int) :
    (scr_stat_update ext band f stat).length = stat.length := by
  rw [scr_stat_update_eq]
  exact foldl_set_length _ _ _

lemma scr_stat_update_getD (ext : Ext) (band : Band) (f : Frame) (stat : List Int)
    (hlen : stat.length = 128) (k : Nat) (hk : k < 128) :
    (scr_stat_update ext band f stat).getD k 0 =
      if scrFails ext band f k then clampDec2 (stat.getD k 0) else stat.getD k 0 + 1 := by
  rw [scr_stat_update_eq]
  rw [foldl_set_getD _ (List.range 128) stat (List.nodup_range 128)
    (fun j hj => by rw [hlen]; exact List.mem_range.mp hj) k]
  rw [if_pos (List.mem_range.mpr hk)]
  unfold scrUpd
  rfl

lemma clampDec2_eq_max (x : Int) : clampDec2 x = max 0 (x - 2) := by
  unfold clampDec2
  rcases lt_or_ge (x - 2) 0 with h | h
  · rw [if_pos h, max_eq_left (le_of_lt h)]
  · rw [if_neg (not_lt.mpr h), max_eq_right h]

lemma detect_commit_stat (p : PhysCh) (stat : List Int) (mm : Nat × Nat) :
    (detect_commit p stat mm).scr_stat = stat := by
  unfold detect_commit
  split <;> rfl

lemma detect_commit_guess (p : PhysCh) (stat : List Int) (mm : Nat × Nat) :
    (detect_commit p stat mm).scr_guess = mm.1 := by
  unfold detect_commit
  split <;> rfl

lemma detect_commit_scr (p : PhysCh) (stat : List Int) (mm : Nat × Nat) :
    (detect_commit p stat mm).scr =
      if stat.getD mm.2 0 < stat.getD mm.1 0 - p.scr_confidence then some mm.1
      else p.scr := by
  unfold detect_commit
  split <;> rfl

lemma detect_scr_stat (ext : Ext) (p : PhysCh) (f : Frame) :
    (detect_scr ext p f).scr_stat = scr_stat_update ext p.band f p.scr_stat := by
  unfold detect_scr
  exact detect_commit_stat _ _ _

lemma detect_scr_guess (ext : Ext) (p : PhysCh) (f : Frame) :
    (detect_scr ext p f).scr_guess =
      (select_scr (scr_stat_update ext p.band f p.scr_stat)).1 := by
  unfold detect_scr
  exact detect_commit_guess _ _ _

lemma detect_scr_scr (ext : Ext) (p : PhysCh) (f : Frame) :
    (detect_scr ext p f).scr =
      if (scr_stat_update ext p.band f p.scr_stat).getD
          (select_scr (scr_stat_update ext p.band f p.scr_stat)).2 0 <
         (scr_stat_update ext p.band f p.scr_stat).getD
          (select_scr (scr_stat_update ext p.band f p.scr_stat)).1 0 - p.scr_confidence
      then some (select_scr (scr_stat_update ext p.band f p.scr_stat)).1
      else p.scr := by
  unfold detect_scr
  exact detect_commit_scr _ _ _

set_option maxRecDepth 8192 in
/-- Claim C6: while `scr == DETECT`, each candidate key's score becomes
`max(0, old - 2)` when its speculative pipeline has convolutional errors
or fails CRC, and `old + 1` otherwise; all scores stay non-negative, and
`tetrapol_phys_ch_set_scr` zeroes them (hence non-negative too). -/
theorem C6_scr_stat_update (ext : Ext) (p : PhysCh) (f : Frame)
    (hlen : p.scr_stat.length = 128)
    (hnn : ∀ k, k < 128 → 0 ≤ p.scr_stat.getD k 0) :
    (∀ k, k < 128 → (detect_scr ext p f).scr_stat.getD k 0 =
      if scrFails ext p.band f k then max 0 (p.scr_stat.getD k 0 - 2)
      else p.scr_stat.getD k 0 + 1) ∧
    (∀ k, 0 ≤ (detect_scr ext p f).scr_stat.getD k 0) ∧
    (∀ s k, 0 ≤ (tetrapol_phys_ch_set_scr p s).scr_stat.getD k 0) := by
  have hstat := detect_scr_stat ext p f
  refine ⟨?_, ?_, ?_⟩
  · intro k hk
    rw [hstat, scr_stat_update_getD ext p.band f p.scr_stat hlen k hk, clampDec2_eq_max]
  · intro k
    rcases Nat.lt_or_ge k 128 with hk | hk
    · rw [hstat, scr_stat_update_getD ext p.band f p.scr_stat hlen k hk]
      split
      · unfold clampDec2
        split <;> omega
      · have := hnn k hk
        omega
    · rw [hstat,
        List.getD_eq_default _ _ (by rw [scr_stat_update_length, hlen]; omega)]
  · intro s k
    show 0 ≤ (List.replicate 128 (0 : Int)).getD k 0
    rw [getD_replicate_zero]

set_option maxRecDepth 8192 in
/-- Witness for C6 at a fresh state, the all-zero frame, and the
always-failing CRC. -/
theorem C6_scr_stat_update_witness :
    baseState.scr_stat.length = 128 ∧
    (∀ k, k < 128 → 0 ≤ baseState.scr_stat.getD k 0) ∧
    ((∀ k, k < 128 → (detect_scr extFalse baseState zeroFrame).scr_stat.getD k 0 =
      if scrFails extFalse baseState.band zeroFrame k
      then max 0 (baseState.scr_stat.getD k 0 - 2)
      else baseState.scr_stat.getD k 0 + 1) ∧
    (∀ k, 0 ≤ (detect_scr extFalse baseState zeroFrame).scr_stat.getD k 0) ∧
    (∀ s k, 0 ≤ (tetrapol_phys_ch_set_scr baseState s).scr_stat.getD k 0)) :=
  ⟨by decide, by decide,
    C6_scr_stat_update extFalse baseState zeroFrame (by decide) (by decide)⟩

lemma select_fold_inv (stat : List Int) :
    ∀ (n s : Nat) (mm : Nat × Nat), 2 ≤ s →
      mm.1 < s → mm.2 < s → mm.1 ≠ mm.2 →
      (∀ k, k < s → stat.getD k 0 ≤ stat.getD mm.1 0) →
      (∀ k, 2 ≤ k → k < s → stat.getD mm.1 0 ≤ stat.getD k 0 → k ≤ mm.1) →
      (((List.range' s n).foldl (selStep stat) mm).1 < s + n ∧
       ((List.range' s n).foldl (selStep stat) mm).2 < s + n ∧
       ((List.range' s n).foldl (selStep stat) mm).1 ≠
         ((List.range' s n).foldl (selStep stat) mm).2 ∧
       (∀ k, k < s + n →
         stat.getD k 0 ≤ stat.getD ((List.range' s n).foldl (selStep stat) mm).1 0) ∧
       (∀ k, 2 ≤ k → k < s + n →
         stat.getD ((List.range' s n).foldl (selStep stat) mm).1 0 ≤ stat.getD k 0 →
         k ≤ ((List.range' s n).foldl (selStep stat) mm).1)) := by
  intro n
  induction n with
  | zero =>
    intro s mm _ h1a h1b hne hmax htie
    simp only [show List.range' s 0 = [] from rfl, List.foldl_nil, Nat.add_zero]
    exact ⟨h1a, h1b, hne, hmax, htie⟩
  | succ n ih =>
    intro s mm h2 h1a h1b hne hmax htie
    rw [List.range'_succ, List.foldl_cons]
    have hstep1 : (selStep stat mm s).1 < s + 1 := by
      unfold selStep
      split
      · exact Nat.lt_succ_self s
      · exact Nat.lt_succ_of_lt h1a
    have hstep2 : (selStep stat mm s).2 < s + 1 := by
      unfold selStep
      split
      · exact Nat.lt_succ_of_lt h1a
      · exact Nat.lt_succ_of_lt h1b
    have hstep3 : (selStep stat mm s).1 ≠ (selStep stat mm s).2 := by
      unfold selStep
      split
      · exact Nat.ne_of_gt h1a
      · exact hne
    have hstep4 : ∀ k, k < s + 1 → stat.getD k 0 ≤ stat.getD (selStep stat mm s).1 0 := by
      intro k hk
      unfold selStep
      split
      · rename_i hc
        rcases Nat.lt_or_ge k s with hks | hks
        · exact le_trans (hmax k hks) hc
        · have hkeq : k = s := by omega
          subst hkeq
          exact le_refl _
      · rename_i hc
        rcases Nat.lt_or_ge k s with hks | hks
        · exact hmax k hks
        · have hkeq : k = s := by omega
          subst hkeq
          exact le_of_lt (not_le.mp hc)
    have hstep5 : ∀ k, 2 ≤ k → k < s + 1 →
        stat.getD (selStep stat mm s).1 0 ≤ stat.getD k 0 → k ≤ (selStep stat mm s).1 := by
      unfold selStep
      split
      · rename_i hc
        intro k _ hk _
        omega
      · rename_i hc
        intro k hk2 hk ha
        rcases Nat.lt_or_ge k s with hks | hks
        · exact htie k hk2 hks ha
        · have hkeq : k = s := by omega
          subst hkeq
          exact absurd ha hc
    obtain ⟨a1, a2, a3, a4, a5⟩ :=
      ih (s + 1) (selStep stat mm s) (by omega) hstep1 hstep2 hstep3 hstep4 hstep5
    refine ⟨by omega, by omega, a3, ?_, ?_⟩
    · intro k hk
      exact a4 k (by omega)
    · intro k hk2 hk3 hle
      exact a5 k hk2 (by omega) hle

lemma select_scr_spec (stat : List Int) :
    (select_scr stat).1 < 128 ∧ (select_scr stat).2 < 128 ∧
    (select_scr stat).1 ≠ (select_scr stat).2 ∧
    (∀ k, k < 128 → stat.getD k 0 ≤ stat.getD (select_scr stat).1 0) ∧
    (∀ k, 2 ≤ k → k < 128 → stat.getD (select_scr stat).1 0 ≤ stat.getD k 0 →
      k ≤ (select_scr stat).1) := by
  unfold select_scr
  by_cases h01 : stat.getD 0 0 < stat.getD 1 0
  · rw [if_pos h01]
    obtain ⟨a1, a2, a3, a4, a5⟩ := select_fold_inv stat 126 2 (1, 0) (le_refl 2)
      (by omega) (by omega) (by omega)
      (fun k hk => by
        rcases (by omega : k = 0 ∨ k = 1) with rfl | rfl
        · exact le_of_lt h01
        · exact le_refl _)
      (fun k hk2 hk => absurd hk (by omega))
    exact ⟨by omega, by omega, a3, fun k hk => a4 k (by omega),
      fun k hk2 hk hle => a5 k hk2 (by omega) hle⟩
  · rw [if_neg h01]
    obtain ⟨a1, a2, a3, a4, a5⟩ := select_fold_inv stat 126 2 (0, 1) (le_refl 2)
      (by omega) (by omega) (by omega)
      (fun k hk => by
        rcases (by omega : k = 0 ∨ k = 1) with rfl | rfl
        · exact le_refl _
        · exact not_lt.mp h01)
      (fun k hk2 hk => absurd hk (by omega))
    exact ⟨by omega, by omega, a3, fun k hk => a4 k (by omega),
      fun k hk2 hk hle => a5 k hk2 (by omega) hle⟩

lemma select_fold_congr (a b : List Int) (h : ∀ k, k < 128 → a.getD k 0 = b.getD k 0) :
    ∀ (l : List Nat), (∀ k ∈ l, k < 128) → ∀ (mm : Nat × Nat), mm.1 < 128 →
      l.foldl (selStep a) mm = l.foldl (selStep b) mm := by
  intro l
  induction l with
  | nil =>
    intro _ mm _
    rfl
  | cons j rest ih =>
    intro hb mm hm
    rw [List.foldl_cons, List.foldl_cons]
    have hj : j < 128 := hb j (List.mem_cons_self j rest)
    have hstep : selStep a mm j = selStep b mm j := by
      unfold selStep
      rw [h mm.1 hm, h j hj]
    rw [hstep]
    refine ih (fun k hk => hb k (List.mem_cons_of_mem j hk)) (selStep b mm j) ?_
    unfold selStep
    split
    · exact hj
    · exact hm

lemma select_scr_congr (a b : List Int) (h : ∀ k, k < 128 → a.getD k 0 = b.getD k 0) :
    select_scr a = select_scr b := by
  unfold select_scr
  rw [h 0 (by omega), h 1 (by omega)]
  apply select_fold_congr a b h
  · intro k hk
    have := List.mem_range'_1.mp hk
    omega
  · split <;> omega

/-- Statistics before the update in the C5 counterexample. -/
def exStatPre : List Int := [2, 7, 5] ++ List.replicate 125 2

/-- Statistics after the update in the C5 counterexample. -/
def exStatPost : List Int := [0, 5, 3] ++ List.replicate 125 0

/-- The detection-mode state of the C5 counterexample:
`scr_confidence = 4`, scores `exStatPre`. -/
def exState5 : PhysCh :=
  { baseState with
      scr := none
      scr_confidence := 4
      scr_stat := exStatPre }

lemma exStat_fails (k : Nat) : scrFails extFalse Band.UHF zeroFrame k :=
  Or.inr rfl

set_option maxRecDepth 8192 in
lemma exStat_post (k : Nat) (hk : k < 128) :
    (scr_stat_update extFalse Band.UHF zeroFrame exStatPre).getD k 0 =
      exStatPost.getD k 0 := by
  rw [scr_stat_update_getD extFalse Band.UHF zeroFrame exStatPre (by decide) k hk,
    if_pos (exStat_fails k)]
  have hcl : ∀ j, j < 128 → clampDec2 (exStatPre.getD j 0) = exStatPost.getD j 0 := by
    decide
  exact hcl k hk

set_option maxRecDepth 8192 in
lemma exStat_select :
    select_scr (scr_stat_update extFalse Band.UHF zeroFrame exStatPre) = (1, 0) := by
  rw [select_scr_congr _ exStatPost exStat_post]
  decide

lemma detect_scr_exState5 :
    detect_scr extFalse exState5 zeroFrame =
      detect_commit exState5 (scr_stat_update extFalse Band.UHF zeroFrame exStatPre)
        (1, 0) := by
  unfold detect_scr
  show detect_commit exState5 (scr_stat_update extFalse Band.UHF zeroFrame exStatPre)
    (select_scr (scr_stat_update extFalse Band.UHF zeroFrame exStatPre)) = _
  rw [exStat_select]

set_option maxRecDepth 8192 in
/-- Claim C5 counterexample: with updated scores `[0, 5, 3, 0, ...]` and
`scr_confidence = 4` the code commits `scr := 1`, although
`score(best) - confidence = 5 - 4 = 1` is NOT greater than the runner-up
score 3 (attained at key 2): the commit test compares against the
previously displaced best (key 0, score 0), not the runner-up. -/
theorem C5_counterexample :
    (detect_scr extFalse exState5 zeroFrame).scr = some 1 ∧
    (detect_scr extFalse exState5 zeroFrame).scr_guess = 1 ∧
    (detect_scr extFalse exState5 zeroFrame).scr_stat.getD 1 0 = 5 ∧
    (detect_scr extFalse exState5 zeroFrame).scr_stat.getD 2 0 = 3 ∧
    (∀ k, k < 128 → k ≠ 1 →
      (detect_scr extFalse exState5 zeroFrame).scr_stat.getD k 0 ≤ 3) ∧
    ¬ ((detect_scr extFalse exState5 zeroFrame).scr_stat.getD 1 0 -
        exState5.scr_confidence > 3) := by
  have hpost : ∀ k, k < 128 →
      (detect_scr extFalse exState5 zeroFrame).scr_stat.getD k 0 = exStatPost.getD k 0 := by
    intro k hk
    rw [detect_scr_exState5, detect_commit_stat]
    exact exStat_post k hk
  refine ⟨?_, ?_, ?_, ?_, ?_, ?_⟩
  · rw [detect_scr_exState5, detect_commit_scr]
    rw [exStat_post 0 (by omega), exStat_post 1 (by omega)]
    have hc : exStatPost.getD 0 0 < exStatPost.getD 1 0 - exState5.scr_confidence := by
      decide
    rw [if_pos hc]
  · rw [detect_scr_exState5, detect_commit_guess]
  · rw [hpost 1 (by omega)]
    decide
  · rw [hpost 2 (by omega)]
    decide
  · intro k hk hk1
    rw [hpost k hk]
    have hb : ∀ j, j < 128 → j ≠ 1 → exStatPost.getD j 0 ≤ 3 := by decide
    exact hb k hk hk1
  · rw [hpost 1 (by omega)]
    decide

/-- Claim C5 (amended): after each full 128-key score update `scr_guess`
is a key of maximal score, but ties among keys `≥ 2` are broken in
favour of the HIGHER key index (the `>=` promotion test lets later equal
scores displace the best); `scr` transitions from DETECT exactly when
`scr_stat[best] - scr_confidence > scr_stat[m2]` where `m2` is the best
displaced last (not necessarily the runner-up score). -/
theorem C5_scr_selection (ext : Ext) (p : PhysCh) (f : Frame) (hscr : p.scr = none) :
    (detect_scr ext p f).scr_guess =
      (select_scr (scr_stat_update ext p.band f p.scr_stat)).1 ∧
    (select_scr (scr_stat_update ext p.band f p.scr_stat)).1 < 128 ∧
    (∀ k, k < 128 → (scr_stat_update ext p.band f p.scr_stat).getD k 0 ≤
      (scr_stat_update ext p.band f p.scr_stat).getD
        (select_scr (scr_stat_update ext p.band f p.scr_stat)).1 0) ∧
    (∀ k, 2 ≤ k → k < 128 →
      (scr_stat_update ext p.band f p.scr_stat).getD
        (select_scr (scr_stat_update ext p.band f p.scr_stat)).1 0 ≤
        (scr_stat_update ext p.band f p.scr_stat).getD k 0 →
      k ≤ (select_scr (scr_stat_update ext p.band f p.scr_stat)).1) ∧
    (detect_scr ext p f).scr =
      (if (scr_stat_update ext p.band f p.scr_stat).getD
          (select_scr (scr_stat_update ext p.band f p.scr_stat)).2 0 <
         (scr_stat_update ext p.band f p.scr_stat).getD
          (select_scr (scr_stat_update ext p.band f p.scr_stat)).1 0 - p.scr_confidence
       then some (select_scr (scr_stat_update ext p.band f p.scr_stat)).1
       else none) := by
  obtain ⟨a1, a2, a3, a4, a5⟩ := select_scr_spec (scr_stat_update ext p.band f p.scr_stat)
  refine ⟨detect_scr_guess ext p f, a1, a4, a5, ?_⟩
  rw [detect_scr_scr, hscr]

/-- Witness for the amended C5 at the counterexample state. -/
theorem C5_scr_selection_witness :
    exState5.scr = none ∧
    ((detect_scr extFalse exState5 zeroFrame).scr_guess =
      (select_scr (scr_stat_update extFalse exState5.band zeroFrame exState5.scr_stat)).1 ∧
    (select_scr (scr_stat_update extFalse exState5.band zeroFrame exState5.scr_stat)).1 < 128 ∧
    (∀ k, k < 128 →
      (scr_stat_update extFalse exState5.band zeroFrame exState5.scr_stat).getD k 0 ≤
      (scr_stat_update extFalse exState5.band zeroFrame exState5.scr_stat).getD
        (select_scr (scr_stat_update extFalse exState5.band zeroFrame exState5.scr_stat)).1 0) ∧
    (∀ k, 2 ≤ k → k < 128 →
      (scr_stat_update extFalse exState5.band zeroFrame exState5.scr_stat).getD
        (select_scr (scr_stat_update extFalse exState5.band zeroFrame exState5.scr_stat)).1 0 ≤
        (scr_stat_update extFalse exState5.band zeroFrame exState5.scr_stat).getD k 0 →
      k ≤ (select_scr (scr_stat_update extFalse exState5.band zeroFrame exState5.scr_stat)).1) ∧
    (detect_scr extFalse exState5 zeroFrame).scr =
      (if (scr_stat_update extFalse exState5.band zeroFrame exState5.scr_stat).getD
          (select_scr (scr_stat_update extFalse exState5.band zeroFrame exState5.scr_stat)).2 0 <
         (scr_stat_update extFalse exState5.band zeroFrame exState5.scr_stat).getD
          (select_scr (scr_stat_update extFalse exState5.band zeroFrame exState5.scr_stat)).1 0 -
          exState5.scr_confidence
       then some (select_scr (scr_stat_update extFalse exState5.band zeroFrame exState5.scr_stat)).1
       else none)) :=
  ⟨rfl, C5_scr_selection extFalse exState5 zeroFrame rfl⟩

end Tetrapol
